import Mathlib

/-!
Verification development for the go-load-tester repository.

We shallowly embed the core of the program in Lean:
* `CategorizeError` from `internal/errors` (the outcome classifier),
* `MakeRequest` from `internal/client` (the request executor), with the
  transport call abstracted as an `HttpAttempt` value,
* `CollectAndCalculateStats` and `percentile` from `internal/stats/collector.go`
  (the streaming statistics collector), with the result channel modelled as a
  finite list of `TestResult`s and wall-clock reads passed as parameters,
* the dispatcher of `internal/runner/runner.go` as an interleaving transition
  system over task phases and the counting semaphore.

Go `time.Duration` values are `Int` nanoseconds, Go `int` counters that only
ever increase from zero are `Nat`, Go `map` values are association lists with
an increment operation, and Go `float64` arithmetic is modelled by exact
rational arithmetic over `ℚ`.
-/

namespace LoadTester

/-- The closed error taxonomy of `internal/errors` (`ErrorType` constants).
`none` is the empty string `ErrorTypeNone`. -/
inductive ErrorType where
  | none
  | dns
  | connection
  | timeout
  | tls
  | url
  | network
  | serverError
  | clientError
  | redirect
  | httpStatus
  | bodyValidation
deriving DecidableEq

/-- Boolean test that `sub` occurs at the start of `hay` (on character lists). -/
def startsList (sub hay : List Char) : Bool :=
  match sub, hay with
  | [], _ => true
  | _ :: _, [] => false
  | a :: as, b :: bs => a = b && startsList as bs

/-- Boolean test that `sub` occurs somewhere inside `hay` (on character lists). -/
def containsSub (sub hay : List Char) : Bool :=
  match hay with
  | [] => sub.isEmpty
  | _ :: t => startsList sub hay || containsSub sub t

/-- Model of Go `strings.Contains hay sub`. -/
def strContains (hay sub : String) : Bool :=
  containsSub sub.data hay.data

/-- Abstraction of a Go `error` value as seen by `CategorizeError`: which
interface/type assertions succeed, what `Timeout()` and `Op` report, whether it
is `context.DeadlineExceeded`, and its `Error()` text. -/
structure GoError where
  isNetError : Bool
  netTimeout : Bool
  isDNSError : Bool
  isOpError : Bool
  opIsDial : Bool
  isURLError : Bool
  isDeadlineExceeded : Bool
  text : String
deriving DecidableEq

/-- Embedding of `CategorizeError` from `internal/errors`: the transport-error
branch first (each test in source order), then the HTTP status mismatch branch,
then body validation, then success. -/
def CategorizeError (err : Option GoError) (statusCode expectedStatus : Int)
    (expectedBody responseBody : String) : ErrorType × String :=
  match err with
  | Option.some e =>
    if e.isNetError && e.netTimeout then
      (ErrorType.timeout, "Request timeout: " ++ e.text)
    else if e.isDNSError then
      (ErrorType.dns, "DNS resolution failed: " ++ e.text)
    else if e.isOpError && e.opIsDial then
      (ErrorType.connection, "Connection failed: " ++ e.text)
    else if e.isURLError then
      (ErrorType.url, "Invalid URL: " ++ e.text)
    else if strContains e.text "tls" || strContains e.text "certificate" then
      (ErrorType.tls, "TLS/SSL error: " ++ e.text)
    else if e.isDeadlineExceeded then
      (ErrorType.timeout, "Request deadline exceeded")
    else
      (ErrorType.network, "Network error: " ++ e.text)
  | Option.none =>
    if statusCode ≠ expectedStatus then
      if statusCode ≥ 500 then
        (ErrorType.serverError, "Server error (HTTP " ++ toString statusCode ++ ")")
      else if statusCode ≥ 400 then
        (ErrorType.clientError, "Client error (HTTP " ++ toString statusCode ++ ")")
      else if statusCode ≥ 300 then
        (ErrorType.redirect, "Unexpected redirect (HTTP " ++ toString statusCode ++ ")")
      else
        (ErrorType.httpStatus,
          "Unexpected status code: " ++ toString statusCode ++
            " (expected " ++ toString expectedStatus ++ ")")
    else if expectedBody ≠ "" && !strContains responseBody expectedBody then
      (ErrorType.bodyValidation,
        "Response body does not contain expected text: " ++ expectedBody)
    else
      (ErrorType.none, "")

/-- The error kind component of a `CategorizeError` call. -/
def categorizeKind (err : Option GoError) (statusCode expectedStatus : Int)
    (expectedBody responseBody : String) : ErrorType :=
  (CategorizeError err statusCode expectedStatus expectedBody responseBody).1

/-- Embedding of `client.TestResult` (Go struct): one outcome per request.
`responseTime` is `time.Duration` nanoseconds, `responseSize` is `int64`. -/
structure TestResult where
  success : Bool
  statusCode : Int
  responseTime : Int
  errorType : ErrorType
  errorMessage : String
  responseSize : Int
deriving DecidableEq

/-- Embedding of `config.RequestConfig` (Go struct). -/
structure RequestConfig where
  url : String
  expectedStatus : Int
  expectedBody : String
  timeout : Int
  concurrency : Nat
deriving DecidableEq

/-- Abstraction of what the transport layer did for one request, covering the
four control-flow paths of `MakeRequest` in `internal/client`:
request construction failed, `client.Do` failed, the body read failed after a
response arrived (with the partially read body), or everything was read. -/
inductive HttpAttempt where
  | buildFail (e : GoError)
  | doFail (e : GoError)
  | readFail (e : GoError) (status : Int) (partialBody : String)
  | ok (status : Int) (body : String)
deriving DecidableEq

/-- Embedding of `MakeRequest` from `internal/client`: for each transport
outcome, the classifier call the Go code makes and the `TestResult` it builds.
`elapsed` stands for the `time.Since(start)` measurement of that path. -/
def MakeRequest (config : RequestConfig) (att : HttpAttempt) (elapsed : Int) :
    TestResult :=
  match att with
  | HttpAttempt.buildFail e =>
    let r := CategorizeError (Option.some e) 0 config.expectedStatus config.expectedBody ""
    { success := false, statusCode := 0, responseTime := elapsed,
      errorType := r.1, errorMessage := r.2, responseSize := 0 }
  | HttpAttempt.doFail e =>
    let r := CategorizeError (Option.some e) 0 config.expectedStatus config.expectedBody ""
    { success := false, statusCode := 0, responseTime := elapsed,
      errorType := r.1, errorMessage := r.2, responseSize := 0 }
  | HttpAttempt.readFail e status partialBody =>
    let r := CategorizeError (Option.some e) 0 config.expectedStatus config.expectedBody ""
    { success := false, statusCode := status, responseTime := elapsed,
      errorType := r.1, errorMessage := r.2,
      responseSize := (partialBody.length : Int) }
  | HttpAttempt.ok status body =>
    let r := CategorizeError Option.none status config.expectedStatus config.expectedBody body
    { success := decide (r.1 = ErrorType.none), statusCode := status,
      responseTime := elapsed, errorType := r.1, errorMessage := r.2,
      responseSize := (body.length : Int) }

/-- The error kind returned by the `CategorizeError` call that `MakeRequest`
performs on the given transport outcome (same arguments, path by path). -/
def requestVerdict (config : RequestConfig) (att : HttpAttempt) : ErrorType :=
  match att with
  | HttpAttempt.buildFail e =>
    categorizeKind (Option.some e) 0 config.expectedStatus config.expectedBody ""
  | HttpAttempt.doFail e =>
    categorizeKind (Option.some e) 0 config.expectedStatus config.expectedBody ""
  | HttpAttempt.readFail e _ _ =>
    categorizeKind (Option.some e) 0 config.expectedStatus config.expectedBody ""
  | HttpAttempt.ok status body =>
    categorizeKind Option.none status config.expectedStatus config.expectedBody body

/-- Go map increment `m[k]++`: bump the entry of `k`, inserting it at count 1
when absent. Association-list model of a Go `map[K]int` whose values only ever
grow from zero. -/
def bumpKey {α : Type} [DecidableEq α] (m : List (α × Nat)) (k : α) :
    List (α × Nat) :=
  match m with
  | [] => [(k, 1)]
  | (k0, v) :: t => if k0 = k then (k0, v + 1) :: t else (k0, v) :: bumpKey t k

/-- Sum of the counts stored in a map (association-list model). -/
def mapSum {α : Type} (m : List (α × Nat)) : Nat :=
  m.foldr (fun p acc => p.2 + acc) 0

/-- Insert one duration into an ascending-sorted list. -/
def insertAsc (x : Int) : List Int → List Int
  | [] => [x]
  | y :: t => if x ≤ y then x :: y :: t else y :: insertAsc x t

/-- Ascending sort of the retained response times; models the
`sort.Slice(stats.ResponseTimes, <)` call of the collector. -/
def sortTimes : List Int → List Int
  | [] => []
  | x :: t => insertAsc x (sortTimes t)

/-- `time.Hour` in nanoseconds, the `MinTime` initialization sentinel. -/
def goHour : Int := 3600000000000

/-- Embedding of `stats.LoadTestStats`. Durations are `Int` nanoseconds,
counters `Nat`, the two breakdown maps association lists, and the two
`float64` fields exact rationals. -/
structure LoadTestStats where
  TotalRequests : Nat
  SuccessfulReqs : Nat
  FailedReqs : Nat
  SuccessRate : ℚ
  AverageTime : Int
  MinTime : Int
  MaxTime : Int
  MedianTime : Int
  P95Time : Int
  P99Time : Int
  ErrorBreakdown : List (ErrorType × Nat)
  StatusBreakdown : List (Int × Nat)
  TotalDataTransfer : Int
  RequestsPerSecond : ℚ
  TestDuration : Int
  ResponseTimes : List Int

/-- The struct literal that `CollectAndCalculateStats` starts from: zero
values everywhere except `MinTime := time.Hour` and empty maps/slice. -/
def initStats : LoadTestStats :=
  { TotalRequests := 0, SuccessfulReqs := 0, FailedReqs := 0,
    SuccessRate := 0, AverageTime := 0, MinTime := goHour, MaxTime := 0,
    MedianTime := 0, P95Time := 0, P99Time := 0, ErrorBreakdown := [],
    StatusBreakdown := [], TotalDataTransfer := 0, RequestsPerSecond := 0,
    TestDuration := 0, ResponseTimes := [] }

/-- One iteration of the `for result := range results` loop of
`CollectAndCalculateStats`: the stats record plus the `totalTime`
accumulator. -/
def stepStats (acc : LoadTestStats × Int) (result : TestResult) :
    LoadTestStats × Int :=
  let stats := acc.1
  let totalTime := acc.2
  let stats := { stats with
    TotalRequests := stats.TotalRequests + 1,
    ResponseTimes := stats.ResponseTimes ++ [result.responseTime],
    TotalDataTransfer := stats.TotalDataTransfer + result.responseSize }
  let stats :=
    if result.success then
      { stats with SuccessfulReqs := stats.SuccessfulReqs + 1 }
    else
      let stats := { stats with FailedReqs := stats.FailedReqs + 1 }
      if result.errorType ≠ ErrorType.none then
        { stats with ErrorBreakdown := bumpKey stats.ErrorBreakdown result.errorType }
      else stats
  let stats :=
    if result.statusCode > 0 then
      { stats with StatusBreakdown := bumpKey stats.StatusBreakdown result.statusCode }
    else stats
  let totalTime := totalTime + result.responseTime
  let stats :=
    if result.responseTime < stats.MinTime then
      { stats with MinTime := result.responseTime }
    else stats
  let stats :=
    if result.responseTime > stats.MaxTime then
      { stats with MaxTime := result.responseTime }
    else stats
  (stats, totalTime)

/-- Embedding of the `percentile` helper of `internal/stats/collector.go`. -/
def percentile (sortedTimes : List Int) (p : Nat) : Int :=
  if sortedTimes.length = 0 then 0
  else
    let index := sortedTimes.length * p / 100
    let index := if index ≥ sortedTimes.length then sortedTimes.length - 1 else index
    sortedTimes.getD index 0

/-- Embedding of `CollectAndCalculateStats`: fold the loop body over the
finite outcome stream, then run the finalization block. `testDuration` is the
`time.Since(testStart)` wall-clock reading in nanoseconds. -/
def CollectAndCalculateStats (results : List TestResult) (testDuration : Int) :
    LoadTestStats :=
  let acc := results.foldl stepStats (initStats, 0)
  let stats := acc.1
  let totalTime := acc.2
  let stats := { stats with TestDuration := testDuration }
  if stats.TotalRequests > 0 then
    let stats := { stats with
      SuccessRate := (stats.SuccessfulReqs : ℚ) / (stats.TotalRequests : ℚ) * 100,
      AverageTime := totalTime / (stats.TotalRequests : Int),
      RequestsPerSecond :=
        (stats.TotalRequests : ℚ) / ((testDuration : ℚ) / 1000000000) }
    let stats := { stats with ResponseTimes := sortTimes stats.ResponseTimes }
    if stats.ResponseTimes.length > 0 then
      { stats with
        MedianTime := percentile stats.ResponseTimes 50,
        P95Time := percentile stats.ResponseTimes 95,
        P99Time := percentile stats.ResponseTimes 99 }
    else stats
  else stats

/-- Phase of one dispatcher task (`RunLoadTest` goroutine body): not yet
admitted by the semaphore, executing `MakeRequest` while holding a semaphore
slot, outcome enqueued on the results channel, or returned (semaphore slot
released and `wg.Done` run). -/
inductive Phase where
  | idle
  | running
  | sent
  | done
deriving DecidableEq

/-- Global state of the dispatcher of `internal/runner`: one phase per task,
the number of occupied semaphore slots, the number of outcomes enqueued on the
results channel, and whether `close(results)` has run. The results channel has
capacity `numRequests`, so enqueues never block. -/
structure DState (n : Nat) where
  phase : Fin n → Phase
  sem : Nat
  resultsSent : Nat
  closed : Bool

/-- Start of a run: every task spawned but blocked on the semaphore, no slot
held, nothing enqueued, channel open. -/
def DState.init (n : Nat) : DState n :=
  { phase := fun _ => Phase.idle, sem := 0, resultsSent := 0, closed := false }

/-- Interleaving semantics of `RunLoadTest` with concurrency limit `C`:
a task acquires a semaphore slot (`semaphore <- struct{}{}` succeeds only while
fewer than `C` slots are held) and starts `MakeRequest`; a running task
finishes and enqueues its outcome; a task that enqueued releases its slot and
returns; `close(results)` runs only once `wg.Wait()` returns, i.e. after every
task is done. -/
inductive DStep (n C : Nat) : DState n → DState n → Prop where
  | acquire (s : DState n) (i : Fin n) :
      s.phase i = Phase.idle → s.sem < C →
      DStep n C s { s with phase := Function.update s.phase i Phase.running,
                           sem := s.sem + 1 }
  | enqueue (s : DState n) (i : Fin n) :
      s.phase i = Phase.running →
      DStep n C s { s with phase := Function.update s.phase i Phase.sent,
                           resultsSent := s.resultsSent + 1 }
  | release (s : DState n) (i : Fin n) :
      s.phase i = Phase.sent →
      DStep n C s { s with phase := Function.update s.phase i Phase.done,
                           sem := s.sem - 1 }
  | closeStream (s : DState n) :
      (∀ i, s.phase i = Phase.done) →
      DStep n C s { s with closed := true }

/-- States reachable during a run of the dispatcher. -/
def DReach (n C : Nat) (s : DState n) : Prop :=
  Relation.ReflTransGen (DStep n C) (DState.init n) s

/-- Number of tasks currently in phase `ph`. -/
def cnt {n : Nat} (f : Fin n → Phase) (ph : Phase) : Nat :=
  (Finset.univ.filter (fun i => f i = ph)).card

/-- The dispatcher invariant: the semaphore occupancy equals the number of
tasks holding a slot (running or sent-but-not-released), the enqueued-outcome
count equals the number of tasks past their send, the ceiling `C` is never
exceeded, and the stream is closed only with every task done. -/
def DInv (n C : Nat) (s : DState n) : Prop :=
  s.sem = cnt s.phase Phase.running + cnt s.phase Phase.sent ∧
  s.resultsSent = cnt s.phase Phase.sent + cnt s.phase Phase.done ∧
  s.sem ≤ C ∧
  (s.closed = true → ∀ i, s.phase i = Phase.done)

/-- The five-element sorted sample of the spec, in nanoseconds:
100ms, 200ms, 300ms, 400ms, 500ms. -/
def sampleTimes : List Int :=
  [100000000, 200000000, 300000000, 400000000, 500000000]

/-- One-task run, after the task acquired the semaphore. -/
def dw1 : DState 1 :=
  { DState.init 1 with
    phase := Function.update (DState.init 1).phase 0 Phase.running,
    sem := (DState.init 1).sem + 1 }

/-- One-task run, after the task enqueued its outcome. -/
def dw2 : DState 1 :=
  { dw1 with phase := Function.update dw1.phase 0 Phase.sent,
             resultsSent := dw1.resultsSent + 1 }

/-- One-task run, after the task released its semaphore slot. -/
def dw3 : DState 1 :=
  { dw2 with phase := Function.update dw2.phase 0 Phase.done,
             sem := dw2.sem - 1 }

/-- One-task run, after `close(results)`. -/
def dw4 : DState 1 :=
  { dw3 with closed := true }

/-- Moving task `i` from `f i` to `new` shifts the phase counts by exactly the
departed and arrived phase. -/
theorem cnt_update {n : Nat} (f : Fin n → Phase) (i : Fin n) (new ph : Phase) :
    cnt (Function.update f i new) ph + (if f i = ph then 1 else 0) =
      cnt f ph + (if new = ph then 1 else 0) := by
  unfold cnt
  rw [Finset.card_filter, Finset.card_filter]
  have hfun : (fun j => if Function.update f i new j = ph then 1 else 0) =
      Function.update (fun j => if f j = ph then 1 else 0) i
        (if new = ph then 1 else 0) := by
    funext j
    by_cases hj : j = i
    · subst hj; simp [Function.update_same]
    · simp [Function.update_noteq hj]
  rw [hfun]
  rw [Finset.sum_update_of_mem (Finset.mem_univ i)]
  rw [Finset.sum_eq_sum_diff_singleton_add (Finset.mem_univ i)
    (fun j => if f j = ph then 1 else 0)]
  omega

theorem cnt_pos {n : Nat} (f : Fin n → Phase) (i : Fin n) (ph : Phase)
    (h : f i = ph) : 1 ≤ cnt f ph := by
  have : i ∈ Finset.univ.filter (fun j => f j = ph) := by
    simp [Finset.mem_filter, h]
  exact Finset.card_pos.mpr ⟨i, this⟩

theorem cnt_const {n : Nat} (f : Fin n → Phase) (ph : Phase)
    (h : ∀ i, f i = ph) : cnt f ph = n := by
  unfold cnt
  rw [Finset.filter_true_of_mem (fun i _ => h i)]
  simp

theorem cnt_zero_of_ne {n : Nat} (f : Fin n → Phase) (ph ph2 : Phase)
    (hne : ph ≠ ph2) (h : ∀ i, f i = ph) : cnt f ph2 = 0 := by
  unfold cnt
  rw [Finset.card_eq_zero]
  apply Finset.filter_eq_empty_iff.mpr
  intro i _
  rw [h i]
  exact hne

theorem dinv_step {n C : Nat} {s t : DState n} (hstep : DStep n C s t)
    (ih : DInv n C s) : DInv n C t := by
  obtain ⟨ih1, ih2, ih3, ih4⟩ := ih
  cases hstep with
  | acquire i hph hsem =>
    have h1 := cnt_update s.phase i Phase.running Phase.running
    have h2 := cnt_update s.phase i Phase.running Phase.sent
    have h3 := cnt_update s.phase i Phase.running Phase.done
    rw [hph] at h1 h2 h3
    simp at h1 h2 h3
    refine ⟨by simp only; omega, by simp only; omega, by simp only; omega, ?_⟩
    intro hc
    exact absurd (hph ▸ ih4 hc i) (by simp)
  | enqueue i hph =>
    have h1 := cnt_update s.phase i Phase.sent Phase.running
    have h2 := cnt_update s.phase i Phase.sent Phase.sent
    have h3 := cnt_update s.phase i Phase.sent Phase.done
    rw [hph] at h1 h2 h3
    simp at h1 h2 h3
    refine ⟨by simp only; omega, by simp only; omega, by simp only; omega, ?_⟩
    intro hc
    exact absurd (hph ▸ ih4 hc i) (by simp)
  | release i hph =>
    have h1 := cnt_update s.phase i Phase.done Phase.running
    have h2 := cnt_update s.phase i Phase.done Phase.sent
    have h3 := cnt_update s.phase i Phase.done Phase.done
    rw [hph] at h1 h2 h3
    simp at h1 h2 h3
    have hpos := cnt_pos s.phase i Phase.sent hph
    refine ⟨by simp only; omega, by simp only; omega, by simp only; omega, ?_⟩
    intro hc
    exact absurd (hph ▸ ih4 hc i) (by simp)
  | closeStream hall =>
    exact ⟨ih1, ih2, ih3, fun _ => hall⟩

theorem dinv_of_reach {n C : Nat} {s : DState n} (h : DReach n C s) :
    DInv n C s := by
  induction h with
  | refl =>
    refine ⟨by simp [DState.init, cnt], by simp [DState.init, cnt],
      by simp [DState.init], ?_⟩
    intro hc
    simp [DState.init] at hc
  | tail hr step ih => exact dinv_step step ih

theorem mapSum_bumpKey {α : Type} [DecidableEq α] (m : List (α × Nat)) (k : α) :
    mapSum (bumpKey m k) = mapSum m + 1 := by
  induction m with
  | nil => simp [bumpKey, mapSum]
  | cons p t ih =>
    obtain ⟨k0, v⟩ := p
    by_cases h : k0 = k
    · simp [bumpKey, mapSum, h]
      omega
    · simp only [bumpKey, mapSum, if_neg h, List.foldr_cons]
      simp only [mapSum] at ih
      omega

theorem bumpKey_keys {α : Type} [DecidableEq α] (m : List (α × Nat)) (k : α)
    (P : α → Prop) (hm : ∀ p ∈ m, P p.1) (hk : P k) :
    ∀ p ∈ bumpKey m k, P p.1 := by
  induction m with
  | nil =>
    intro p hp
    simp [bumpKey] at hp
    rw [hp]
    exact hk
  | cons q t ih =>
    obtain ⟨k0, v⟩ := q
    by_cases h : k0 = k
    · intro p hp
      simp only [bumpKey, if_pos h] at hp
      rcases List.mem_cons.mp hp with h1 | h1
      · rw [h1]; exact hm (k0, v) (List.mem_cons_self _ _)
      · exact hm p (List.mem_cons_of_mem _ h1)
    · intro p hp
      simp only [bumpKey, if_neg h] at hp
      rcases List.mem_cons.mp hp with h1 | h1
      · rw [h1]; exact hm (k0, v) (List.mem_cons_self _ _)
      · exact ih (fun q hq => hm q (List.mem_cons_of_mem _ hq)) p h1

theorem stepStats_TotalRequests (acc : LoadTestStats × Int) (r : TestResult) :
    (stepStats acc r).1.TotalRequests = acc.1.TotalRequests + 1 := by
  simp only [stepStats]
  split_ifs <;> rfl

theorem stepStats_SuccessfulReqs (acc : LoadTestStats × Int) (r : TestResult) :
    (stepStats acc r).1.SuccessfulReqs =
      acc.1.SuccessfulReqs + (if r.success then 1 else 0) := by
  simp only [stepStats]
  split_ifs <;> rfl

theorem stepStats_FailedReqs (acc : LoadTestStats × Int) (r : TestResult) :
    (stepStats acc r).1.FailedReqs =
      acc.1.FailedReqs + (if r.success then 0 else 1) := by
  simp only [stepStats]
  split_ifs <;> rfl

theorem stepStats_ErrorBreakdown (acc : LoadTestStats × Int) (r : TestResult) :
    (stepStats acc r).1.ErrorBreakdown =
      if r.success = false ∧ r.errorType ≠ ErrorType.none then
        bumpKey acc.1.ErrorBreakdown r.errorType
      else acc.1.ErrorBreakdown := by
  simp only [stepStats]
  split_ifs <;> simp_all

theorem stepStats_StatusBreakdown (acc : LoadTestStats × Int) (r : TestResult) :
    (stepStats acc r).1.StatusBreakdown =
      if r.statusCode > 0 then bumpKey acc.1.StatusBreakdown r.statusCode
      else acc.1.StatusBreakdown := by
  simp only [stepStats]
  split_ifs <;> simp_all

theorem stepStats_MinTime (acc : LoadTestStats × Int) (r : TestResult) :
    (stepStats acc r).1.MinTime =
      if r.responseTime < acc.1.MinTime then r.responseTime
      else acc.1.MinTime := by
  simp only [stepStats]
  split_ifs <;> simp_all

theorem stepStats_SuccessRate (acc : LoadTestStats × Int) (r : TestResult) :
    (stepStats acc r).1.SuccessRate = acc.1.SuccessRate := by
  simp only [stepStats]
  split_ifs <;> rfl

theorem foldl_TotalRequests (results : List TestResult) :
    ∀ acc : LoadTestStats × Int,
      (results.foldl stepStats acc).1.TotalRequests =
        acc.1.TotalRequests + results.length := by
  induction results with
  | nil => intro acc; simp
  | cons r t ih =>
    intro acc
    rw [List.foldl_cons, ih, stepStats_TotalRequests, List.length_cons]
    omega

theorem foldl_SuccessfulReqs (results : List TestResult) :
    ∀ acc : LoadTestStats × Int,
      (results.foldl stepStats acc).1.SuccessfulReqs =
        acc.1.SuccessfulReqs + results.countP (fun r => r.success) := by
  induction results with
  | nil => intro acc; simp
  | cons r t ih =>
    intro acc
    rw [List.foldl_cons, ih, stepStats_SuccessfulReqs, List.countP_cons]
    by_cases h : r.success <;> simp [h] <;> omega

theorem foldl_FailedReqs (results : List TestResult) :
    ∀ acc : LoadTestStats × Int,
      (results.foldl stepStats acc).1.FailedReqs =
        acc.1.FailedReqs + results.countP (fun r => !r.success) := by
  induction results with
  | nil => intro acc; simp
  | cons r t ih =>
    intro acc
    rw [List.foldl_cons, ih, stepStats_FailedReqs, List.countP_cons]
    by_cases h : r.success <;> simp [h] <;> omega

theorem foldl_ErrorBreakdown_sum (results : List TestResult) :
    ∀ acc : LoadTestStats × Int,
      mapSum (results.foldl stepStats acc).1.ErrorBreakdown =
        mapSum acc.1.ErrorBreakdown +
          results.countP
            (fun r => !r.success && decide (r.errorType ≠ ErrorType.none)) := by
  induction results with
  | nil => intro acc; simp
  | cons r t ih =>
    intro acc
    rw [List.foldl_cons, ih, stepStats_ErrorBreakdown, List.countP_cons]
    by_cases h1 : r.success
    · simp [h1]
    · by_cases h2 : r.errorType = ErrorType.none
      · simp [h1, h2]
      · simp [h1, h2, mapSum_bumpKey]
        omega

theorem foldl_StatusBreakdown_sum (results : List TestResult) :
    ∀ acc : LoadTestStats × Int,
      mapSum (results.foldl stepStats acc).1.StatusBreakdown =
        mapSum acc.1.StatusBreakdown +
          results.countP (fun r => decide (r.statusCode > 0)) := by
  induction results with
  | nil => intro acc; simp
  | cons r t ih =>
    intro acc
    rw [List.foldl_cons, ih, stepStats_StatusBreakdown, List.countP_cons]
    by_cases h : r.statusCode > 0
    · simp [h, mapSum_bumpKey]
      omega
    · simp [h]

theorem foldl_StatusBreakdown_keys (results : List TestResult) :
    ∀ acc : LoadTestStats × Int,
      (∀ p ∈ acc.1.StatusBreakdown, 0 < p.1) →
      ∀ p ∈ (results.foldl stepStats acc).1.StatusBreakdown, 0 < p.1 := by
  induction results with
  | nil => intro acc h; simpa using h
  | cons r t ih =>
    intro acc h
    rw [List.foldl_cons]
    apply ih
    rw [stepStats_StatusBreakdown]
    by_cases hpos : r.statusCode > 0
    · rw [if_pos hpos]
      exact bumpKey_keys _ _ _ h hpos
    · rw [if_neg hpos]
      exact h

theorem foldl_MinTime_hour (results : List TestResult)
    (hall : ∀ r ∈ results, goHour < r.responseTime) :
    ∀ acc : LoadTestStats × Int, acc.1.MinTime = goHour →
      (results.foldl stepStats acc).1.MinTime = goHour := by
  induction results with
  | nil => intro acc h; simpa using h
  | cons r t ih =>
    intro acc h
    rw [List.foldl_cons]
    apply ih (fun q hq => hall q (List.mem_cons_of_mem _ hq))
    rw [stepStats_MinTime, h]
    have := hall r (List.mem_cons_self _ _)
    rw [if_neg (by omega)]

theorem foldl_SuccessRate (results : List TestResult) :
    ∀ acc : LoadTestStats × Int,
      (results.foldl stepStats acc).1.SuccessRate = acc.1.SuccessRate := by
  induction results with
  | nil => intro acc; simp
  | cons r t ih =>
    intro acc
    rw [List.foldl_cons, ih, stepStats_SuccessRate]

theorem collect_TotalRequests (results : List TestResult) (dur : Int) :
    (CollectAndCalculateStats results dur).TotalRequests =
      (results.foldl stepStats (initStats, 0)).1.TotalRequests := by
  simp only [CollectAndCalculateStats]
  split_ifs <;> rfl

theorem collect_SuccessfulReqs (results : List TestResult) (dur : Int) :
    (CollectAndCalculateStats results dur).SuccessfulReqs =
      (results.foldl stepStats (initStats, 0)).1.SuccessfulReqs := by
  simp only [CollectAndCalculateStats]
  split_ifs <;> rfl

theorem collect_FailedReqs (results : List TestResult) (dur : Int) :
    (CollectAndCalculateStats results dur).FailedReqs =
      (results.foldl stepStats (initStats, 0)).1.FailedReqs := by
  simp only [CollectAndCalculateStats]
  split_ifs <;> rfl

theorem collect_ErrorBreakdown (results : List TestResult) (dur : Int) :
    (CollectAndCalculateStats results dur).ErrorBreakdown =
      (results.foldl stepStats (initStats, 0)).1.ErrorBreakdown := by
  simp only [CollectAndCalculateStats]
  split_ifs <;> rfl

theorem collect_StatusBreakdown (results : List TestResult) (dur : Int) :
    (CollectAndCalculateStats results dur).StatusBreakdown =
      (results.foldl stepStats (initStats, 0)).1.StatusBreakdown := by
  simp only [CollectAndCalculateStats]
  split_ifs <;> rfl

theorem collect_MinTime (results : List TestResult) (dur : Int) :
    (CollectAndCalculateStats results dur).MinTime =
      (results.foldl stepStats (initStats, 0)).1.MinTime := by
  simp only [CollectAndCalculateStats]
  split_ifs <;> rfl

theorem collect_SuccessRate (results : List TestResult) (dur : Int) :
    (CollectAndCalculateStats results dur).SuccessRate =
      if (results.foldl stepStats (initStats, 0)).1.TotalRequests > 0 then
        ((results.foldl stepStats (initStats, 0)).1.SuccessfulReqs : ℚ) /
          ((results.foldl stepStats (initStats, 0)).1.TotalRequests : ℚ) * 100
      else (results.foldl stepStats (initStats, 0)).1.SuccessRate := by
  simp only [CollectAndCalculateStats]
  split_ifs <;> rfl

/-- C2: for every finite stream of outcomes consumed by the stats collector,
`TotalRequests` counts every outcome, `SuccessfulReqs` the outcomes with
success flag true, `FailedReqs` those with success flag false, and
`TotalRequests = SuccessfulReqs + FailedReqs`. -/
theorem collector_total_eq_success_add_failed (results : List TestResult)
    (dur : Int) :
    (CollectAndCalculateStats results dur).TotalRequests = results.length ∧
    (CollectAndCalculateStats results dur).SuccessfulReqs =
      results.countP (fun r => r.success) ∧
    (CollectAndCalculateStats results dur).FailedReqs =
      results.countP (fun r => !r.success) ∧
    (CollectAndCalculateStats results dur).TotalRequests =
      (CollectAndCalculateStats results dur).SuccessfulReqs +
        (CollectAndCalculateStats results dur).FailedReqs := by
  rw [collect_TotalRequests, collect_SuccessfulReqs, collect_FailedReqs,
    foldl_TotalRequests, foldl_SuccessfulReqs, foldl_FailedReqs]
  have hc : results.countP (fun a => decide ¬(a.success = true)) =
      results.countP (fun r => !r.success) :=
    List.countP_congr (by intro a _; by_cases h : a.success <;> simp [h])
  have h := List.length_eq_countP_add_countP (fun r : TestResult => r.success)
    (l := results)
  simp only [initStats, Nat.zero_add]
  refine ⟨trivial, trivial, trivial, ?_⟩
  omega

/-- C1 counterexample: a single failed outcome whose error kind is the empty
kind is counted in `FailedReqs` but dropped from `ErrorBreakdown`, so the
breakdown counts do not sum to `FailedReqs` on this stream. -/
theorem collector_error_breakdown_sum_cex :
    ¬ (mapSum (CollectAndCalculateStats
          [{ success := false, statusCode := 0, responseTime := 0,
             errorType := ErrorType.none, errorMessage := "",
             responseSize := 0 }] 0).ErrorBreakdown =
        (CollectAndCalculateStats
          [{ success := false, statusCode := 0, responseTime := 0,
             errorType := ErrorType.none, errorMessage := "",
             responseSize := 0 }] 0).FailedReqs) := by
  decide

/-- C1 (amended): provided every failed outcome carries a non-empty error
kind — which the executor guarantees — the counts in `ErrorBreakdown` sum to
`FailedReqs`, so no such failure is omitted from the breakdown. -/
theorem collector_error_breakdown_sum (results : List TestResult) (dur : Int)
    (h : ∀ r ∈ results, r.success = false → r.errorType ≠ ErrorType.none) :
    mapSum (CollectAndCalculateStats results dur).ErrorBreakdown =
      (CollectAndCalculateStats results dur).FailedReqs := by
  rw [collect_ErrorBreakdown, collect_FailedReqs, foldl_ErrorBreakdown_sum,
    foldl_FailedReqs]
  simp only [initStats, mapSum, List.foldr_nil, Nat.zero_add]
  apply List.countP_congr
  intro r hr
  by_cases hs : r.success
  · simp [hs]
  · simp only [Bool.not_eq_true] at hs
    simp [hs, h r hr hs]

/-- C1 witness for `collector_error_breakdown_sum`. -/
theorem collector_error_breakdown_sum_witness :
    mapSum (CollectAndCalculateStats
        [{ success := false, statusCode := 500, responseTime := 7,
           errorType := ErrorType.serverError, errorMessage := "m",
           responseSize := 3 }] 0).ErrorBreakdown =
      (CollectAndCalculateStats
        [{ success := false, statusCode := 500, responseTime := 7,
           errorType := ErrorType.serverError, errorMessage := "m",
           responseSize := 3 }] 0).FailedReqs :=
  collector_error_breakdown_sum _ 0 (by decide)

/-- C7: the collector field `SuccessRate` is 0 when `TotalRequests` is 0 (the
division is guarded away), and otherwise equals
`100 * SuccessfulReqs / TotalRequests`. -/
theorem collector_success_rate (results : List TestResult) (dur : Int) :
    ((CollectAndCalculateStats results dur).TotalRequests = 0 →
      (CollectAndCalculateStats results dur).SuccessRate = 0) ∧
    (0 < (CollectAndCalculateStats results dur).TotalRequests →
      (CollectAndCalculateStats results dur).SuccessRate =
        100 * ((CollectAndCalculateStats results dur).SuccessfulReqs : ℚ) /
          ((CollectAndCalculateStats results dur).TotalRequests : ℚ)) := by
  rw [collect_SuccessRate, collect_TotalRequests, collect_SuccessfulReqs,
    foldl_SuccessRate]
  constructor
  · intro h0
    rw [if_neg (by omega)]
    simp [initStats]
  · intro hpos
    rw [if_pos hpos]
    ring

/-- C7 witness for `collector_success_rate` (empty stream: rate 0). -/
theorem collector_success_rate_witness :
    (CollectAndCalculateStats [] 0).SuccessRate = 0 :=
  (collector_success_rate [] 0).1 (by decide)

/-- C9: on the empty outcome stream the summary has `TotalRequests` 0,
`MaxTime` 0, `AverageTime` 0, all percentiles 0 and `MinTime` equal to the
one-hour initialization sentinel; and `MinTime` remains one hour whenever
every observed elapsed time exceeds one hour. -/
theorem collector_empty_and_min_sentinel :
    (∀ dur : Int,
      (CollectAndCalculateStats [] dur).TotalRequests = 0 ∧
      (CollectAndCalculateStats [] dur).MaxTime = 0 ∧
      (CollectAndCalculateStats [] dur).AverageTime = 0 ∧
      (CollectAndCalculateStats [] dur).MedianTime = 0 ∧
      (CollectAndCalculateStats [] dur).P95Time = 0 ∧
      (CollectAndCalculateStats [] dur).P99Time = 0 ∧
      (CollectAndCalculateStats [] dur).MinTime = goHour) ∧
    (∀ (results : List TestResult) (dur : Int),
      (∀ r ∈ results, goHour < r.responseTime) →
      (CollectAndCalculateStats results dur).MinTime = goHour) := by
  constructor
  · intro dur
    exact ⟨rfl, rfl, rfl, rfl, rfl, rfl, rfl⟩
  · intro results dur hall
    rw [collect_MinTime]
    exact foldl_MinTime_hour results hall (initStats, 0) rfl

/-- C9 witness for `collector_empty_and_min_sentinel` (one outcome slower
than an hour keeps the sentinel). -/
theorem collector_empty_and_min_sentinel_witness :
    (CollectAndCalculateStats
        [{ success := true, statusCode := 200, responseTime := goHour + 1,
           errorType := ErrorType.none, errorMessage := "",
           responseSize := 0 }] 0).MinTime = goHour :=
  collector_empty_and_min_sentinel.2 _ 0 (by decide)

/-- C10: the status-code breakdown counts exactly the outcomes whose status
is strictly positive, its counts sum to at most `TotalRequests`, and every
key present in it is positive (status-0 outcomes get no entry). -/
theorem collector_status_breakdown (results : List TestResult) (dur : Int) :
    mapSum (CollectAndCalculateStats results dur).StatusBreakdown =
      results.countP (fun r => decide (r.statusCode > 0)) ∧
    mapSum (CollectAndCalculateStats results dur).StatusBreakdown ≤
      (CollectAndCalculateStats results dur).TotalRequests ∧
    (∀ p ∈ (CollectAndCalculateStats results dur).StatusBreakdown,
      0 < p.1) := by
  rw [collect_StatusBreakdown, collect_TotalRequests,
    foldl_StatusBreakdown_sum, foldl_TotalRequests]
  simp only [initStats, mapSum, List.foldr_nil, Nat.zero_add]
  refine ⟨trivial, List.countP_le_length _, ?_⟩
  exact foldl_StatusBreakdown_keys results (initStats, 0) (by simp [initStats])

/-- C10 witness for `collector_status_breakdown`. -/
theorem collector_status_breakdown_witness :
    mapSum (CollectAndCalculateStats
        [{ success := true, statusCode := 200, responseTime := 1,
           errorType := ErrorType.none, errorMessage := "",
           responseSize := 0 }] 0).StatusBreakdown = 1 :=
  ((collector_status_breakdown
    [{ success := true, statusCode := 200, responseTime := 1,
       errorType := ErrorType.none, errorMessage := "",
       responseSize := 0 }] 0).1).trans (by decide)

/-- C4: on a non-empty sorted sequence, `percentile` returns the element at
index `len * p / 100`, clamped to `len - 1`; on the five-element sample
100..500ms the median is 300ms and p95 and p99 are both 500ms. -/
theorem percentile_clamped_index :
    (∀ (l : List Int) (p : Nat), l ≠ [] →
      percentile l p = l.getD (min (l.length * p / 100) (l.length - 1)) 0) ∧
    percentile sampleTimes 50 = 300000000 ∧
    percentile sampleTimes 95 = 500000000 ∧
    percentile sampleTimes 99 = 500000000 := by
  refine ⟨?_, by decide, by decide, by decide⟩
  intro l p hl
  have hlen : l.length ≠ 0 := fun h => hl (List.length_eq_zero.mp h)
  simp only [percentile]
  rw [if_neg hlen]
  by_cases h : l.length * p / 100 ≥ l.length
  · rw [if_pos h]
    congr 1
    omega
  · rw [if_neg h]
    congr 1
    omega

/-- C4 witness for `percentile_clamped_index`. -/
theorem percentile_clamped_index_witness :
    percentile sampleTimes 50 =
      sampleTimes.getD (min (sampleTimes.length * 50 / 100)
        (sampleTimes.length - 1)) 0 :=
  percentile_clamped_index.1 sampleTimes 50 (by decide)

/-- C5: with a transport error present, the classifier applies its tests in
the fixed source order, first match winning: timeout-class net error, DNS
failure, dial failure, URL error, TLS/certificate text, deadline-exceeded,
then the generic Network catch-all. Guards are stated exactly as the code
evaluates them. -/
theorem classifier_transport_order (e : GoError) (s es : Int)
    (eb rb : String) :
    ((e.isNetError && e.netTimeout) = true →
      categorizeKind (Option.some e) s es eb rb = ErrorType.timeout) ∧
    ((e.isNetError && e.netTimeout) = false → e.isDNSError = true →
      categorizeKind (Option.some e) s es eb rb = ErrorType.dns) ∧
    ((e.isNetError && e.netTimeout) = false → e.isDNSError = false →
      (e.isOpError && e.opIsDial) = true →
      categorizeKind (Option.some e) s es eb rb = ErrorType.connection) ∧
    ((e.isNetError && e.netTimeout) = false → e.isDNSError = false →
      (e.isOpError && e.opIsDial) = false → e.isURLError = true →
      categorizeKind (Option.some e) s es eb rb = ErrorType.url) ∧
    ((e.isNetError && e.netTimeout) = false → e.isDNSError = false →
      (e.isOpError && e.opIsDial) = false → e.isURLError = false →
      (strContains e.text "tls" || strContains e.text "certificate") = true →
      categorizeKind (Option.some e) s es eb rb = ErrorType.tls) ∧
    ((e.isNetError && e.netTimeout) = false → e.isDNSError = false →
      (e.isOpError && e.opIsDial) = false → e.isURLError = false →
      (strContains e.text "tls" || strContains e.text "certificate") = false →
      e.isDeadlineExceeded = true →
      categorizeKind (Option.some e) s es eb rb = ErrorType.timeout) ∧
    ((e.isNetError && e.netTimeout) = false → e.isDNSError = false →
      (e.isOpError && e.opIsDial) = false → e.isURLError = false →
      (strContains e.text "tls" || strContains e.text "certificate") = false →
      e.isDeadlineExceeded = false →
      categorizeKind (Option.some e) s es eb rb = ErrorType.network) := by
  refine ⟨?_, ?_, ?_, ?_, ?_, ?_, ?_⟩
  · intro hA
    simp only [categorizeKind, CategorizeError]
    rw [if_pos hA]
  · intro hA hB
    simp only [categorizeKind, CategorizeError]
    rw [if_neg (by simp [hA]), if_pos hB]
  · intro hA hB hC
    simp only [categorizeKind, CategorizeError]
    rw [if_neg (by simp [hA]), if_neg (by simp [hB]), if_pos hC]
  · intro hA hB hC hD
    simp only [categorizeKind, CategorizeError]
    rw [if_neg (by simp [hA]), if_neg (by simp [hB]), if_neg (by simp [hC]),
      if_pos hD]
  · intro hA hB hC hD hE
    simp only [categorizeKind, CategorizeError]
    rw [if_neg (by simp [hA]), if_neg (by simp [hB]), if_neg (by simp [hC]),
      if_neg (by simp [hD]), if_pos hE]
  · intro hA hB hC hD hE hF
    simp only [categorizeKind, CategorizeError]
    rw [if_neg (by simp [hA]), if_neg (by simp [hB]), if_neg (by simp [hC]),
      if_neg (by simp [hD]), if_neg (by simp [hE]), if_pos hF]
  · intro hA hB hC hD hE hF
    simp only [categorizeKind, CategorizeError]
    rw [if_neg (by simp [hA]), if_neg (by simp [hB]), if_neg (by simp [hC]),
      if_neg (by simp [hD]), if_neg (by simp [hE]), if_neg (by simp [hF])]

/-- C5 witness for `classifier_transport_order` (a timeout-class net
error). -/
theorem classifier_transport_order_witness :
    categorizeKind (Option.some
      { isNetError := true, netTimeout := true, isDNSError := false,
        isOpError := false, opIsDial := false, isURLError := false,
        isDeadlineExceeded := false, text := "x" }) 0 200 "" "" =
      ErrorType.timeout :=
  (classifier_transport_order _ 0 200 "" "").1 (by decide)

/-- C6: with no transport error and a status different from the expected
one, the classifier returns ServerError for status ≥ 500, ClientError for
400–499, Redirect for 300–399 and HTTPStatus for any other mismatch. -/
theorem classifier_status_mismatch (s es : Int) (eb rb : String)
    (hne : s ≠ es) :
    (500 ≤ s → categorizeKind Option.none s es eb rb = ErrorType.serverError) ∧
    (400 ≤ s ∧ s ≤ 499 →
      categorizeKind Option.none s es eb rb = ErrorType.clientError) ∧
    (300 ≤ s ∧ s ≤ 399 →
      categorizeKind Option.none s es eb rb = ErrorType.redirect) ∧
    (s < 300 → categorizeKind Option.none s es eb rb = ErrorType.httpStatus) := by
  refine ⟨?_, ?_, ?_, ?_⟩ <;>
    intro h <;>
    simp only [categorizeKind, CategorizeError, if_pos hne]
  · rw [if_pos (show s ≥ 500 by omega)]
  · rw [if_neg (show ¬s ≥ 500 by omega), if_pos (show s ≥ 400 by omega)]
  · rw [if_neg (show ¬s ≥ 500 by omega), if_neg (show ¬s ≥ 400 by omega),
      if_pos (show s ≥ 300 by omega)]
  · rw [if_neg (show ¬s ≥ 500 by omega), if_neg (show ¬s ≥ 400 by omega),
      if_neg (show ¬s ≥ 300 by omega)]

/-- C6 witness for `classifier_status_mismatch` (a 503 when 200 was
expected). -/
theorem classifier_status_mismatch_witness :
    categorizeKind Option.none 503 200 "" "" = ErrorType.serverError :=
  (classifier_status_mismatch 503 200 "" "" (by decide)).1 (by decide)

theorem categorizeKind_some_ne_none (e : GoError) (s es : Int)
    (eb rb : String) :
    categorizeKind (Option.some e) s es eb rb ≠ ErrorType.none := by
  simp only [categorizeKind, CategorizeError]
  split_ifs <;> simp

/-- C8: the success flag of an executor outcome is true exactly when the
classifier call made for that request returns the empty kind; in particular
every transport-tier failure path yields a non-`None` verdict and a false
flag. -/
theorem executor_success_iff_verdict_none (config : RequestConfig)
    (att : HttpAttempt) (elapsed : Int) :
    (MakeRequest config att elapsed).success = true ↔
      requestVerdict config att = ErrorType.none := by
  cases att with
  | buildFail e =>
    simp only [MakeRequest, requestVerdict]
    simp [categorizeKind_some_ne_none]
  | doFail e =>
    simp only [MakeRequest, requestVerdict]
    simp [categorizeKind_some_ne_none]
  | readFail e status partialBody =>
    simp only [MakeRequest, requestVerdict]
    simp [categorizeKind_some_ne_none]
  | ok status body =>
    simp only [MakeRequest, requestVerdict, categorizeKind]
    simp [decide_eq_true_iff]

/-- C3: for a dispatcher run with `n ≥ 1` tasks and concurrency limit `C`
with `1 ≤ C ≤ n`, every reachable state of the interleaving semantics has at
most `C` tasks executing the request function simultaneously, and once the
outcome stream is closed every task has completed and exactly `n` outcomes
have been enqueued for the collector (no loss, no duplication: each task
enqueues exactly once on its way from running to done). -/
theorem dispatcher_bounded_and_complete (n C : Nat) (h1 : 1 ≤ n)
    (h2 : 1 ≤ C) (h3 : C ≤ n) (s : DState n) (hs : DReach n C s) :
    cnt s.phase Phase.running ≤ C ∧
    (s.closed = true →
      s.resultsSent = n ∧ ∀ i, s.phase i = Phase.done) := by
  obtain ⟨i1, i2, i3, i4⟩ := dinv_of_reach hs
  refine ⟨by omega, ?_⟩
  intro hc
  have hall := i4 hc
  refine ⟨?_, hall⟩
  have hz := cnt_zero_of_ne s.phase Phase.done Phase.sent (by simp) hall
  have hn := cnt_const s.phase Phase.done hall
  omega

/-- C3 witness for `dispatcher_bounded_and_complete`: the final state of a
complete one-task run at concurrency 1 (acquire, enqueue, release, close) is
reachable, stays within the limit, and reports exactly one outcome. -/
theorem dispatcher_bounded_and_complete_witness :
    cnt dw4.phase Phase.running ≤ 1 ∧
    (dw4.closed = true →
      dw4.resultsSent = 1 ∧ ∀ i, dw4.phase i = Phase.done) :=
  dispatcher_bounded_and_complete 1 1 (by decide) (by decide) (by decide) dw4
    (Relation.ReflTransGen.tail
      (Relation.ReflTransGen.tail
        (Relation.ReflTransGen.tail
          (Relation.ReflTransGen.tail Relation.ReflTransGen.refl
            (DStep.acquire (DState.init 1) 0 rfl (by decide)))
          (DStep.enqueue dw1 0 (by decide)))
        (DStep.release dw2 0 (by decide)))
      (DStep.closeStream dw3 (by decide)))

end LoadTester
